import Mathlib

/-!
Shallow embedding of the BrainRender video-creation module
(`brainrender/animation/video.py` and `brainrender/animation/video_utils.py`).

Pure data (configurations, keyword-argument tables) becomes Lean structures;
the effectful build pipeline `make_video` becomes a function from explicit
inputs (does the target file exist, the stream of interactive prompt answers,
the fresh temporary-directory name) to an explicit record of its observable
effects (outcome, final working directory, temporary-directory creation,
captured frame names, warning emission, whether a video was written, and the
frame rate handed to assembly).
-/

namespace BrainRender

/-! ### String helpers

Python membership `pat in s` is substring containment; `os.path.join` is
modelled as joining with a single separator (the repository always joins a
folder with a relative file name). -/

/-- `leadMatch pat l` : does `l` start with `pat`? -/
def leadMatch : List Char → List Char → Bool
  | [], _ => true
  | _ :: _, [] => false
  | a :: as, b :: bs => a == b && leadMatch as bs

/-- `occursIn pat l` : does `pat` occur contiguously inside `l`? -/
def occursIn (pat : List Char) : List Char → Bool
  | [] => pat.isEmpty
  | c :: rest => leadMatch pat (c :: rest) || occursIn pat rest

/-- Python `pat in s` for strings. -/
def strContainsSub (s pat : String) : Bool := occursIn pat.toList s.toList

/-- `os.path.join folder name` for a relative `name`. -/
def pathJoin (a b : String) : String := a ++ "/" ++ b

/-- ASCII lowercase of one character (the fragment of Python `str.lower`
relevant to the prompt answers, which are compared against "n" and "y"). -/
def lowerChar (c : Char) : Char :=
  if 'A' ≤ c && c ≤ 'Z' then Char.ofNat (c.toNat + 32) else c

/-- Python `s.lower()`, characterwise. -/
def lowerStr (s : String) : String := String.mk (s.toList.map lowerChar)

/-! ### Session configuration (the attributes of `BasicVideoMaker`) -/

/-- The mutable attributes of `BasicVideoMaker` that drive a build.
`duration` is `Option ℚ` because the Python attribute may be `None`;
`complete_save_path` is only populated by `parse_kwargs` (it does not exist
before the first call; we carry `""` for that pre-state). -/
structure VideoConfig where
  save_fld : String
  save_name : String
  video_format : String
  duration : Option ℚ
  niters : Nat
  fps : Nat
  complete_save_path : String
deriving DecidableEq

/-- One keyword-argument table passed to `parse_kwargs` / `make_video`:
`none` means the keyword was not supplied by the caller. -/
structure Kwargs where
  save_fld : Option String
  save_name : Option String
  video_format : Option String
  duration : Option ℚ
  niters : Option Nat
  fps : Option Nat
deriving DecidableEq

/-- The empty keyword-argument table (no option supplied). -/
def noKwargs : Kwargs :=
  { save_fld := none, save_name := none, video_format := none
  , duration := none, niters := none, fps := none }

/-- `BasicVideoMaker.__init__`: `save_fld` defaults to the scene output-videos
folder, `save_name` to a timestamp-derived name; `video_format` is "mp4",
`duration` 3, `niters` 60, `fps` 30. -/
def initConfig (output_videos timestamp : String) : VideoConfig :=
  { save_fld := output_videos
  , save_name := "brainrender_video_" ++ "_" ++ timestamp
  , video_format := "mp4"
  , duration := some 3
  , niters := 60
  , fps := 30
  , complete_save_path := "" }

/-- `BasicVideoMaker.parse_kwargs`.  Line-by-line from the source:
`save_fld`, `save_name`, `video_format`, `niters`, `fps` default to the prior
attribute value; `duration` defaults to `None` (not to the prior value).  The
source line `self.video_format.replace(".", "")` computes a stripped string
and discards it (the attribute is not reassigned), which we model by a
discarded `let`.  Finally `complete_save_path` is recomputed. -/
def parse_kwargs (self : VideoConfig) (kwargs : Kwargs) : VideoConfig :=
  let save_fld := kwargs.save_fld.getD self.save_fld
  let save_name := kwargs.save_name.getD self.save_name
  let video_format := kwargs.video_format.getD self.video_format
  let _discarded := video_format.replace "." ""
  let duration := kwargs.duration
  let niters := kwargs.niters.getD self.niters
  let fps := kwargs.fps.getD self.fps
  { save_fld := save_fld
  , save_name := save_name
  , video_format := video_format
  , duration := duration
  , niters := niters
  , fps := fps
  , complete_save_path := pathJoin save_fld (save_name ++ "." ++ video_format) }

/-! ### Frame capture -/

/-- `BasicVideoMaker.add_frame`: the new frame is captured to
`os.path.join(tmp_dir, str(len(frames)) + ".png")` and appended. -/
def add_frame (tmp : String) (frames : List String) : List String :=
  frames ++ [pathJoin tmp (toString frames.length ++ ".png")]

/-- `BasicVideoMaker.make_frames`: `niters` iterations, each rendering,
rotating the camera, and appending one frame (only the frame list is
observable here). -/
def make_frames (tmp : String) (frames : List String) : Nat → List String
  | 0 => frames
  | Nat.succ n => make_frames tmp (add_frame tmp frames) n

/-! ### Assembly (`BasicVideoMaker.close`) frame-rate resolution -/

/-- The frame rate `close` hands to `save_videocap_to_video`: when a duration
is set, `np.floor(len(self.frames) / float(self.duration))`; otherwise the
configured integer fps. -/
def resolved_fps (duration : Option ℚ) (fps : Nat) (nframes : Nat) : ℤ :=
  match duration with
  | some d => ⌊(nframes : ℚ) / d⌋
  | none => (fps : ℤ)

/-! ### The interactive overwrite prompt -/

/-- The prompt loop in `make_video`: answers are consumed until a
case-insensitive "n" (abort, `some false`) or "y" (proceed, `some true`);
any other answer re-prompts.  `none` models the loop still blocked on input
after the supplied answers are exhausted. -/
def promptLoop : List String → Option Bool
  | [] => none
  | r :: rest =>
    if lowerStr r == "n" then some false
    else if lowerStr r == "y" then some true
    else promptLoop rest

/-! ### The build pipeline (`BasicVideoMaker.make_video`) -/

/-- How a build invocation ends. -/
inductive BuildOutcome where
  | completed
  | userDeclined
  | formatError
  | blocked
deriving DecidableEq

/-- Inputs the environment supplies to one build: whether the target file
already exists, the stream of interactive answers, and the working directory
at call time (`curdir = os.getcwd()` in the source — saved, but never passed
to `os.chdir` again). -/
structure BuildInputs where
  fileExists : Bool
  responses : List String
  cwd0 : String
deriving DecidableEq

/-- Observable effects of one `make_video` call. -/
structure BuildResult where
  outcome : BuildOutcome
  config : VideoConfig
  cwdFinal : String
  tmpDirCreated : Bool
  frames : List String
  warned : Bool
  videoWritten : Bool
  assemblyFps : Option ℤ
deriving DecidableEq

/-- Result record for every path of `make_video` that stops before capturing
frames (user-declined overwrite, unsupported format, prompt still blocked).
On all of them the temporary directory has already been created by
`initialize_video_creation` and the working directory has already been
changed to `save_fld`; no chdir back to the saved `curdir` appears anywhere
in the source, so `cwdFinal` stays at `save_fld`. -/
def abortResult (o : BuildOutcome) (cfg : VideoConfig) : BuildResult :=
  { outcome := o, config := cfg, cwdFinal := cfg.save_fld
  , tmpDirCreated := true, frames := [], warned := false
  , videoWritten := false, assemblyFps := none }

/-- Result record for a build that runs to completion: the warning condition
is `self.duration is not None and self.fps is not None`, and after
`parse_kwargs` the attribute `self.fps` holds `int(...)`, never `None`, so
the second conjunct is constantly true.  `close` then resolves the frame
rate from the captured frame count and writes the video. -/
def completeResult (cfg : VideoConfig) (tmp : String) : BuildResult :=
  let fps_is_not_none := true
  let warned := cfg.duration.isSome && fps_is_not_none
  let frames := make_frames tmp [] cfg.niters
  { outcome := .completed, config := cfg, cwdFinal := cfg.save_fld
  , tmpDirCreated := true, frames := frames, warned := warned
  , videoWritten := true
  , assemblyFps := some (resolved_fps cfg.duration cfg.fps frames.length) }

/-- `BasicVideoMaker.make_video`, step by step from the source:
1. `parse_kwargs`; 2. `initialize_video_creation` (fresh tmp dir, empty frame
list); 3. save `curdir` and `os.chdir(self.save_fld)` (never undone);
4. if the target file exists, the interactive overwrite loop; a negative
answer returns early; 5. `raise ValueError` unless `'mp4' in video_format or
'avi' in video_format` (substring tests); 6. the duration/fps warning;
7. render, `make_frames`, `close`. -/
def make_video (self : VideoConfig) (kwargs : Kwargs) (tmp : String)
    (inp : BuildInputs) : BuildResult :=
  let cfg := parse_kwargs self kwargs
  match (if inp.fileExists then promptLoop inp.responses else some true) with
  | none => abortResult .blocked cfg
  | some false => abortResult .userDeclined cfg
  | some true =>
    if strContainsSub cfg.video_format "mp4" || strContainsSub cfg.video_format "avi" then
      completeResult cfg tmp
    else
      abortResult .formatError cfg

/-! ### `video_utils.py` -/

/-- The arguments `open_cvwriter` passes to `cv2.VideoWriter`: the codec is
chosen by a substring test on the format tag — `"avi" in format` selects
MJPG, everything else falls through to mp4v. -/
structure CvWriter where
  filepath : String
  fourcc : String
  framerate : ℤ
  width : Nat
  height : Nat
  iscolor : Bool
deriving DecidableEq

/-- `open_cvwriter` from `video_utils.py`. -/
def open_cvwriter (filepath : String) (w h : Nat) (framerate : ℤ)
    (format : String) (iscolor : Bool) : CvWriter :=
  let fourcc := if strContainsSub format "avi" then "MJPG" else "mp4v"
  { filepath := filepath, fourcc := fourcc, framerate := framerate
  , width := w, height := h, iscolor := iscolor }

/-- One raster frame, by its array shape `(shape[0], shape[1], shape[2])` =
(height, width, channels). -/
structure Frame where
  shape0 : Nat
  shape1 : Nat
  shape2 : Nat
deriving DecidableEq

/-- An opened `cv2.VideoCapture`: its frame sequence and the properties the
source queries (`CAP_PROP_FRAME_COUNT`, width, height, fps). -/
structure VideoCap where
  frames : List Frame
  width : Nat
  height : Nat
  fps : ℚ
deriving DecidableEq

/-- `get_cap_selected_frame`: seek and read one frame; `none` when the read
fails. -/
def get_cap_selected_frame (cap : VideoCap) (show_frame : Nat) : Option Frame :=
  cap.frames.get? show_frame

/-- `get_video_params`: reads frame 0, infers the colour flag from
`frame.shape[1] == 3` (the width axis — the source inspects axis 1, not the
channel axis 2), then returns frame count, width, height, fps and that flag.
`none` models the `AttributeError` the source hits when the read fails. -/
def get_video_params (cap : VideoCap) : Option (Nat × Nat × Nat × ℚ × Bool) :=
  match get_cap_selected_frame cap 0 with
  | none => none
  | some frame =>
    let is_color := frame.shape1 == 3
    some (cap.frames.length, cap.width, cap.height, cap.fps, is_color)

/-- `save_videocap_to_video`: prefixes a "." to the format tag when missing,
queries the capture parameters (binding the fps and colour results to `_`),
opens the writer with `iscolor=True`, and copies every frame across.  The
returned pair is the writer configuration and the frames written to it. -/
def save_videocap_to_video (cap : VideoCap) (savepath fmt : String) (fps : ℤ) :
    Option (CvWriter × List Frame) :=
  let fmt := if strContainsSub fmt "." then fmt else "." ++ fmt
  match get_video_params cap with
  | none => none
  | some (_nframes, width, height, _, _) =>
    let writer := open_cvwriter savepath width height fps fmt true
    some (writer, cap.frames)

example : strContainsSub "mp4v" "mp4" = true := by decide
example : strContainsSub "mov" "mp4" = false := by decide
example : promptLoop ["x", "N"] = some false := by decide
example : promptLoop ["Y"] = some true := by decide
example : make_frames "t" [] 2 = ["t/0.png", "t/1.png"] := by decide

/-! ### Concrete instances used by witnesses and counterexamples -/

/-- A concrete post-construction state (`scene.output_videos = "videos"`,
timestamp `20200101_120000`). -/
def sceneCfg : VideoConfig := initConfig "videos" "20200101_120000"

/-! ### Helper lemmas about the frame-capture loop -/

/-- Closed form of the capture loop: starting from `frames`, `n` iterations
append the frame files numbered `frames.length, …, frames.length + n - 1`. -/
theorem make_frames_eq (tmp : String) :
    ∀ (n : Nat) (frames : List String),
      make_frames tmp frames n =
        frames ++ (List.range n).map
          (fun j => pathJoin tmp (toString (frames.length + j) ++ ".png"))
  | 0, frames => by simp [make_frames]
  | n + 1, frames => by
    rw [show make_frames tmp frames (n + 1) = make_frames tmp (add_frame tmp frames) n
          from rfl]
    rw [make_frames_eq tmp n (add_frame tmp frames)]
    rw [List.range_succ_eq_map]
    simp only [add_frame, List.length_append, List.length_cons, List.length_nil,
      List.map_cons, List.map_map, List.append_assoc, List.singleton_append,
      Nat.add_zero, Nat.zero_add]
    congr 1
    congr 1
    apply List.map_congr_left
    intro j _
    simp only [Function.comp]
    have h2 : frames.length + 1 + j = frames.length + Nat.succ j := by omega
    rw [h2]

/-- A loop from an empty frame list captures exactly `n` frames. -/
theorem make_frames_length (tmp : String) (n : Nat) :
    (make_frames tmp [] n).length = n := by
  rw [make_frames_eq]; simp

/-- The `i`-th captured frame (from an empty list) is file `i.png`. -/
theorem make_frames_get (tmp : String) (n i : Nat) (h : i < n) :
    (make_frames tmp [] n)[i]? = some (pathJoin tmp (toString i ++ ".png")) := by
  rw [make_frames_eq]
  simp [List.getElem?_map, List.getElem?_range h]

/-! ### Helper lemmas about the build pipeline -/

/-- Every run of `make_video` is either the completed-path result or one of
the three early-stop results, always over the freshly parsed configuration. -/
theorem make_video_shape (self : VideoConfig) (kwargs : Kwargs) (tmp : String)
    (inp : BuildInputs) :
    make_video self kwargs tmp inp = completeResult (parse_kwargs self kwargs) tmp ∨
    ∃ o, o ≠ BuildOutcome.completed ∧
      make_video self kwargs tmp inp = abortResult o (parse_kwargs self kwargs) := by
  unfold make_video
  split
  · exact Or.inr ⟨.blocked, by decide, rfl⟩
  · exact Or.inr ⟨.userDeclined, by decide, rfl⟩
  · dsimp only
    split
    · exact Or.inl rfl
    · exact Or.inr ⟨.formatError, by decide, rfl⟩

/-- A run whose outcome is `completed` is exactly the completed-path result. -/
theorem make_video_completed_inv (self : VideoConfig) (kwargs : Kwargs)
    (tmp : String) (inp : BuildInputs)
    (h : (make_video self kwargs tmp inp).outcome = .completed) :
    make_video self kwargs tmp inp = completeResult (parse_kwargs self kwargs) tmp := by
  rcases make_video_shape self kwargs tmp inp with heq | ⟨o, ho, heq⟩
  · exact heq
  · rw [heq] at h
    exact absurd h (by simpa [abortResult] using ho)

/-- A run where the file exists and the prompt answers resolve to "n" is the
user-declined early return. -/
theorem make_video_declined (self : VideoConfig) (kwargs : Kwargs) (tmp : String)
    (inp : BuildInputs) (hE : inp.fileExists = true)
    (hp : promptLoop inp.responses = some false) :
    make_video self kwargs tmp inp = abortResult .userDeclined (parse_kwargs self kwargs) := by
  unfold make_video
  rw [hE]
  simp [hp]

/-! ### Claim theorems -/

/-- C1.  On every invocation of `make_video`, whatever its outcome, the final
working directory is the output folder of the freshly parsed configuration —
the saved initial directory `curdir` is never restored (the source saves it
with the comment "and then back here" but contains no second `os.chdir`), so
whenever the caller started outside the output folder the working directory
after the call differs from the one before it. -/
theorem build_cwd_not_restored (self : VideoConfig) (kwargs : Kwargs)
    (tmp : String) (inp : BuildInputs) :
    (make_video self kwargs tmp inp).cwdFinal = (parse_kwargs self kwargs).save_fld ∧
    (inp.cwd0 ≠ (parse_kwargs self kwargs).save_fld →
      (make_video self kwargs tmp inp).cwdFinal ≠ inp.cwd0) := by
  have hfld : (make_video self kwargs tmp inp).cwdFinal = (parse_kwargs self kwargs).save_fld := by
    rcases make_video_shape self kwargs tmp inp with heq | ⟨o, _, heq⟩ <;>
      rw [heq] <;> rfl
  exact ⟨hfld, fun hne => by rw [hfld]; exact fun hc => hne hc.symm⟩

/-- C1 witness: a concrete user-declined run started from `/home/user` ends
with the working directory at the output folder `videos`, not `/home/user`. -/
theorem build_cwd_not_restored_witness :
    (make_video sceneCfg noKwargs "tmpA" ⟨true, ["n"], "/home/user"⟩).cwdFinal =
      (parse_kwargs sceneCfg noKwargs).save_fld ∧
    (make_video sceneCfg noKwargs "tmpA" ⟨true, ["n"], "/home/user"⟩).cwdFinal ≠ "/home/user" :=
  ⟨(build_cwd_not_restored sceneCfg noKwargs "tmpA" ⟨true, ["n"], "/home/user"⟩).1,
   (build_cwd_not_restored sceneCfg noKwargs "tmpA" ⟨true, ["n"], "/home/user"⟩).2
     (by decide)⟩

/-- C2 counterexample: on a concrete build where the target file exists and
the prompt is answered "n", the run is the user-declined early return and yet
`tmpDirCreated = true` — `initialize_video_creation` runs before the
overwrite prompt, so temporary frame-buffer storage IS created, refuting the
"no temporary frame-buffer storage is created" conjunct of the claim. -/
theorem declined_build_creates_tmpdir :
    (make_video sceneCfg noKwargs "tmpA" ⟨true, ["n"], "/home/user"⟩).outcome =
      .userDeclined ∧
    (make_video sceneCfg noKwargs "tmpA" ⟨true, ["n"], "/home/user"⟩).tmpDirCreated = true :=
  ⟨rfl, rfl⟩

/-- C2 amended.  When the target file exists and the prompt answers resolve
to a negative response, `make_video` returns early: no video is written, no
frame is captured — but the temporary frame-buffer directory has already
been created before the prompt. -/
theorem declined_build_effects (self : VideoConfig) (kwargs : Kwargs)
    (tmp : String) (inp : BuildInputs) (hE : inp.fileExists = true)
    (hp : promptLoop inp.responses = some false) :
    (make_video self kwargs tmp inp).outcome = .userDeclined ∧
    (make_video self kwargs tmp inp).videoWritten = false ∧
    (make_video self kwargs tmp inp).frames = [] ∧
    (make_video self kwargs tmp inp).tmpDirCreated = true := by
  rw [make_video_declined self kwargs tmp inp hE hp]
  exact ⟨rfl, rfl, rfl, rfl⟩

/-- C2 amended witness at a concrete declined build. -/
theorem declined_build_effects_witness :
    (make_video sceneCfg noKwargs "tmpB" ⟨true, ["x", "N"], "/h"⟩).outcome =
      .userDeclined ∧
    (make_video sceneCfg noKwargs "tmpB" ⟨true, ["x", "N"], "/h"⟩).videoWritten = false ∧
    (make_video sceneCfg noKwargs "tmpB" ⟨true, ["x", "N"], "/h"⟩).frames = [] ∧
    (make_video sceneCfg noKwargs "tmpB" ⟨true, ["x", "N"], "/h"⟩).tmpDirCreated = true :=
  declined_build_effects sceneCfg noKwargs "tmpB" ⟨true, ["x", "N"], "/h"⟩
    (by decide) (by decide)

/-- C7.  A capture loop from the empty frame list captures exactly `n`
frames, and the `i`-th captured file is `tmp/i.png`: numbering is zero-based
and increases with `i`. -/
theorem capture_loop_frames (tmp : String) (n : Nat) :
    (make_frames tmp [] n).length = n ∧
    ∀ i, i < n →
      (make_frames tmp [] n)[i]? = some (pathJoin tmp (toString i ++ ".png")) :=
  ⟨make_frames_length tmp n, fun i h => make_frames_get tmp n i h⟩

/-- C7 witness: with three iterations, three frames, and frame 1 is
`tmpdir/1.png`. -/
theorem capture_loop_frames_witness :
    (make_frames "tmpdir" [] 3).length = 3 ∧
    (make_frames "tmpdir" [] 3)[1]? = some (pathJoin "tmpdir" (toString 1 ++ ".png")) :=
  ⟨(capture_loop_frames "tmpdir" 3).1,
   (capture_loop_frames "tmpdir" 3).2 1 (by decide)⟩

/-- Keyword table selecting the format tag "mp4v" (not a member of
`{mp4, avi}`) and a small frame count. -/
def mp4vKwargs : Kwargs := { noKwargs with video_format := some "mp4v", niters := some 2 }

/-- C3 counterexample: a concrete build whose parsed format is "mp4v" — not
a member of the allow-list `{mp4, avi}` — nevertheless completes without a
fatal configuration error (and writes the video), because the source tests
`'mp4' in self.video_format`, a substring check, not list membership.  This
refutes the "if" direction of the claimed equivalence. -/
theorem mp4v_build_not_rejected :
    (parse_kwargs sceneCfg mp4vKwargs).video_format = "mp4v" ∧
    ("mp4v" ≠ "mp4" ∧ "mp4v" ≠ "avi") ∧
    (make_video sceneCfg mp4vKwargs "tmpC" ⟨false, [], "/h"⟩).outcome = .completed ∧
    (make_video sceneCfg mp4vKwargs "tmpC" ⟨false, [], "/h"⟩).videoWritten = true :=
  ⟨rfl, ⟨by decide, by decide⟩, rfl, rfl⟩

/-- C3 amended.  Once the overwrite prompt is passed (or the file does not
exist), the fatal format error is raised if and only if the parsed format
tag contains neither "mp4" nor "avi" as a substring; when it is raised the
run stops with no frame captured and no video written (the temporary
directory, however, already exists). -/
theorem format_validation (self : VideoConfig) (kwargs : Kwargs) (tmp : String)
    (inp : BuildInputs)
    (hp : (if inp.fileExists then promptLoop inp.responses else some true) = some true) :
    ((make_video self kwargs tmp inp).outcome = .formatError ↔
      (strContainsSub (parse_kwargs self kwargs).video_format "mp4" = false ∧
       strContainsSub (parse_kwargs self kwargs).video_format "avi" = false)) ∧
    ((make_video self kwargs tmp inp).outcome = .formatError →
      (make_video self kwargs tmp inp).frames = [] ∧
      (make_video self kwargs tmp inp).videoWritten = false ∧
      (make_video self kwargs tmp inp).tmpDirCreated = true) := by
  have hval : make_video self kwargs tmp inp =
      (if strContainsSub (parse_kwargs self kwargs).video_format "mp4" ||
            strContainsSub (parse_kwargs self kwargs).video_format "avi" then
        completeResult (parse_kwargs self kwargs) tmp
       else abortResult .formatError (parse_kwargs self kwargs)) := by
    unfold make_video
    rw [hp]
  rw [hval]
  by_cases hm : (strContainsSub (parse_kwargs self kwargs).video_format "mp4" ||
      strContainsSub (parse_kwargs self kwargs).video_format "avi") = true
  · rw [if_pos hm]
    constructor
    · constructor
      · intro hout
        exact absurd hout (by simp [completeResult])
      · intro ⟨h1, h2⟩
        rw [h1, h2] at hm
        simp at hm
    · intro hout
      exact absurd hout (by simp [completeResult])
  · rw [if_neg hm]
    simp only [Bool.or_eq_true, not_or, Bool.not_eq_true] at hm
    refine ⟨⟨fun _ => ⟨hm.1, hm.2⟩, fun _ => rfl⟩, fun _ => ⟨rfl, rfl, rfl⟩⟩

/-- C3 amended witness: with no pre-existing file and format "mov", the
build stops with the format error, no frame captured, no video written. -/
theorem format_validation_witness :
    ((make_video sceneCfg { noKwargs with video_format := some "mov" } "tmpD"
        ⟨false, [], "/h"⟩).outcome = .formatError ↔
      (strContainsSub (parse_kwargs sceneCfg
          { noKwargs with video_format := some "mov" }).video_format "mp4" = false ∧
       strContainsSub (parse_kwargs sceneCfg
          { noKwargs with video_format := some "mov" }).video_format "avi" = false)) ∧
    ((make_video sceneCfg { noKwargs with video_format := some "mov" } "tmpD"
        ⟨false, [], "/h"⟩).outcome = .formatError →
      (make_video sceneCfg { noKwargs with video_format := some "mov" } "tmpD"
        ⟨false, [], "/h"⟩).frames = [] ∧
      (make_video sceneCfg { noKwargs with video_format := some "mov" } "tmpD"
        ⟨false, [], "/h"⟩).videoWritten = false ∧
      (make_video sceneCfg { noKwargs with video_format := some "mov" } "tmpD"
        ⟨false, [], "/h"⟩).tmpDirCreated = true) :=
  format_validation sceneCfg { noKwargs with video_format := some "mov" } "tmpD"
    ⟨false, [], "/h"⟩ (by decide)

/-- Keyword table supplying the format tag ".mp4" (leading separator). -/
def dotKwargs : Kwargs := { noKwargs with video_format := some ".mp4" }

/-- C4.  Evaluating `parse_kwargs` at format ".mp4": the source line
`self.video_format.replace(".", "")` computes the stripped tag but discards
it (no reassignment), so the stored tag keeps the leading dot and the
computed output path ends in "..mp4" instead of the claimed ".mp4". -/
theorem dot_format_not_stripped :
    (parse_kwargs sceneCfg dotKwargs).video_format = ".mp4" ∧
    (parse_kwargs sceneCfg dotKwargs).complete_save_path =
      "videos/brainrender_video__20200101_120000..mp4" :=
  ⟨rfl, rfl⟩

/-- C5 counterexample: set a duration of 5 via one `parse_kwargs` call, then
call `parse_kwargs` again without mentioning duration — the duration does
not persist: it is reset to `None`, because the source defaults the
`duration` keyword to `None` rather than to the prior attribute value. -/
theorem duration_not_persistent :
    (parse_kwargs sceneCfg { noKwargs with duration := some 5 }).duration = some 5 ∧
    (parse_kwargs (parse_kwargs sceneCfg { noKwargs with duration := some 5 })
      noKwargs).duration = none :=
  ⟨rfl, rfl⟩

/-- C5 amended.  An invocation of `parse_kwargs` that leaves an option unset
keeps the prior value for the output folder, output name, container format,
frame count and frame rate; the duration, however, is reset to `None` by
every invocation that does not mention it. -/
theorem parse_kwargs_unset_options (self : VideoConfig) (kwargs : Kwargs) :
    (kwargs.save_fld = none → (parse_kwargs self kwargs).save_fld = self.save_fld) ∧
    (kwargs.save_name = none → (parse_kwargs self kwargs).save_name = self.save_name) ∧
    (kwargs.video_format = none →
      (parse_kwargs self kwargs).video_format = self.video_format) ∧
    (kwargs.niters = none → (parse_kwargs self kwargs).niters = self.niters) ∧
    (kwargs.fps = none → (parse_kwargs self kwargs).fps = self.fps) ∧
    (kwargs.duration = none → (parse_kwargs self kwargs).duration = none) := by
  refine ⟨?_, ?_, ?_, ?_, ?_, ?_⟩ <;> intro h <;> simp [parse_kwargs, h]

/-- C5 amended witness at the empty keyword table over a state whose
duration is currently set. -/
theorem parse_kwargs_unset_options_witness :
    (parse_kwargs sceneCfg noKwargs).save_fld = sceneCfg.save_fld ∧
    (parse_kwargs sceneCfg noKwargs).save_name = sceneCfg.save_name ∧
    (parse_kwargs sceneCfg noKwargs).video_format = sceneCfg.video_format ∧
    (parse_kwargs sceneCfg noKwargs).niters = sceneCfg.niters ∧
    (parse_kwargs sceneCfg noKwargs).fps = sceneCfg.fps ∧
    (parse_kwargs sceneCfg noKwargs).duration = none :=
  ⟨(parse_kwargs_unset_options sceneCfg noKwargs).1 rfl,
   (parse_kwargs_unset_options sceneCfg noKwargs).2.1 rfl,
   (parse_kwargs_unset_options sceneCfg noKwargs).2.2.1 rfl,
   (parse_kwargs_unset_options sceneCfg noKwargs).2.2.2.1 rfl,
   (parse_kwargs_unset_options sceneCfg noKwargs).2.2.2.2.1 rfl,
   (parse_kwargs_unset_options sceneCfg noKwargs).2.2.2.2.2 rfl⟩

/-- C6.  On a completed build: when a duration `d ≠ 0` was supplied, the
frame rate handed to assembly is `⌊niters / d⌋` (the captured frame count is
`niters`, by C7); when no duration was supplied, it is the configured
integer frame rate. -/
theorem build_assembly_fps (self : VideoConfig) (kwargs : Kwargs) (tmp : String)
    (inp : BuildInputs)
    (hrun : (make_video self kwargs tmp inp).outcome = .completed) :
    (∀ d : ℚ, (parse_kwargs self kwargs).duration = some d → d ≠ 0 →
      (make_video self kwargs tmp inp).assemblyFps =
        some ⌊((parse_kwargs self kwargs).niters : ℚ) / d⌋) ∧
    ((parse_kwargs self kwargs).duration = none →
      (make_video self kwargs tmp inp).assemblyFps =
        some ((parse_kwargs self kwargs).fps : ℤ)) := by
  rw [make_video_completed_inv self kwargs tmp inp hrun]
  constructor
  · intro d hd _
    simp [completeResult, resolved_fps, hd, make_frames_length]
  · intro hd
    simp [completeResult, resolved_fps, hd]

/-- C6 witness: duration 2 over 60 frames resolves to `⌊60 / 2⌋`. -/
theorem build_assembly_fps_witness :
    (make_video sceneCfg { noKwargs with duration := some 2 } "tmpE"
      ⟨false, [], "/h"⟩).assemblyFps =
    some ⌊((parse_kwargs sceneCfg { noKwargs with duration := some 2 }).niters : ℚ) / 2⌋ :=
  (build_assembly_fps sceneCfg { noKwargs with duration := some 2 } "tmpE"
    ⟨false, [], "/h"⟩ rfl).1 2 rfl (by norm_num)

/-- Keyword table supplying a duration but NOT a frame rate. -/
def durOnlyKwargs : Kwargs := { noKwargs with duration := some 5, niters := some 2 }

/-- C8 counterexample: a concrete completed build whose keywords supply a
duration but no `fps` keyword still emits the warning, because the checked
condition `self.fps is not None` is always true: after `parse_kwargs` the
attribute holds `int(...)`.  This refutes "if only a duration is supplied,
no such warning is emitted". -/
theorem warning_without_fps_kwarg :
    durOnlyKwargs.fps = none ∧ durOnlyKwargs.duration = some 5 ∧
    (make_video sceneCfg durOnlyKwargs "tmpF" ⟨false, [], "/h"⟩).outcome = .completed ∧
    (make_video sceneCfg durOnlyKwargs "tmpF" ⟨false, [], "/h"⟩).warned = true :=
  ⟨rfl, rfl, rfl, rfl⟩

/-- C8 amended.  On every build that reaches the warning check (outcome
completed), the warning is emitted if and only if a duration was supplied in
this invocation — whether or not a frame rate was supplied. -/
theorem warning_iff_duration (self : VideoConfig) (kwargs : Kwargs) (tmp : String)
    (inp : BuildInputs)
    (hrun : (make_video self kwargs tmp inp).outcome = .completed) :
    ((make_video self kwargs tmp inp).warned = true ↔ kwargs.duration.isSome = true) := by
  rw [make_video_completed_inv self kwargs tmp inp hrun]
  simp [completeResult, parse_kwargs]

/-- C8 amended witness: duration supplied without fps, warning emitted. -/
theorem warning_iff_duration_witness :
    (make_video sceneCfg durOnlyKwargs "tmpF" ⟨false, [], "/h"⟩).warned = true :=
  (warning_iff_duration sceneCfg durOnlyKwargs "tmpF" ⟨false, [], "/h"⟩ rfl).mpr rfl

/-- C9 counterexample: the unrecognized tag "mov" selects exactly the same
fourcc codec as the recognized tag "mp4" (both fall to "mp4v"), so there is
no third, generic codec distinct from the two recognized ones. -/
theorem mov_codec_not_distinct :
    (open_cvwriter "p" 2 2 30 "mov" true).fourcc =
      (open_cvwriter "p" 2 2 30 "mp4" true).fourcc ∧
    (open_cvwriter "p" 2 2 30 "mov" true).fourcc = "mp4v" :=
  ⟨rfl, rfl⟩

/-- C9 amended.  `open_cvwriter` selects between exactly two codecs: a tag
containing "avi" maps to "MJPG", and every other tag — "mp4" and
unrecognized tags alike — maps to "mp4v"; the two are distinct. -/
theorem codec_selection (filepath : String) (w h : Nat) (r : ℤ) (fmt : String)
    (b : Bool) (hna : strContainsSub fmt "avi" = false) :
    (open_cvwriter filepath w h r fmt b).fourcc = "mp4v" ∧
    (open_cvwriter filepath w h r "avi" b).fourcc = "MJPG" ∧
    ("mp4v" : String) ≠ "MJPG" := by
  refine ⟨?_, rfl, by decide⟩
  simp [open_cvwriter, hna]

/-- C9 amended witness at the tag "mov". -/
theorem codec_selection_witness :
    (open_cvwriter "p" 2 2 30 "mov" true).fourcc = "mp4v" ∧
    (open_cvwriter "p" 2 2 30 "avi" true).fourcc = "MJPG" ∧
    ("mp4v" : String) ≠ "MJPG" :=
  codec_selection "p" 2 2 30 "mov" true (by decide)

/-- C10.  Whatever colour determination `b` the parameter query returns for
the capture, `save_videocap_to_video` opens the writer with `iscolor = true`
and copies the capture frames unchanged: the queried flag is bound to `_`
and never used. -/
theorem save_video_iscolor (cap : VideoCap) (savepath fmt : String) (fps : ℤ)
    (n w h : Nat) (q : ℚ) (b : Bool)
    (hq : get_video_params cap = some (n, w, h, q, b)) :
    ∃ wr : CvWriter,
      save_videocap_to_video cap savepath fmt fps = some (wr, cap.frames) ∧
      wr.iscolor = true := by
  unfold save_videocap_to_video
  rw [hq]
  exact ⟨_, rfl, rfl⟩

/-- C10 witness: a one-frame capture whose query reports gray (`false`) is
still written with `iscolor = true`. -/
theorem save_video_iscolor_witness :
    ∃ wr : CvWriter,
      save_videocap_to_video ⟨[⟨4, 5, 3⟩], 5, 4, 30⟩ "out.mp4" "mp4" 30 =
        some (wr, (⟨[⟨4, 5, 3⟩], 5, 4, 30⟩ : VideoCap).frames) ∧
      wr.iscolor = true :=
  save_video_iscolor ⟨[⟨4, 5, 3⟩], 5, 4, 30⟩ "out.mp4" "mp4" 30 1 5 4 30 false rfl

end BrainRender
